import Mathlib

/-!
Shallow embedding of the SQS capability provider (src/sqs/src/main.rs) and
verification of its link-registry and message-routing behavior.

The provider keeps a process-wide map from actor identifier to an SQS client
handle, mutated by the control surface (put_link, delete_link, shutdown) and
read by the message router (publish, request).  The AWS SDK backend is an
external collaborator: we model a client handle as an opaque value and the
backend's responses (list_queues, send_message, receive_message) as data
supplied per client.  Rust `Result` becomes `Except`, Rust `Option` becomes
`Option`, and an `.unwrap()` on a missing value becomes the `panic` outcome
of `PanicOr`.  The list of backend operations actually issued by a call is
returned alongside its outcome, so that "performs no send/receive" is
provable.
-/

namespace Sqs

/-- `const DEFAULT_ACTOR_NAME: &str = "pgray";` (main.rs line 18). -/
def DEFAULT_ACTOR_NAME : String := "pgray"

/-- Opaque handle for an `aws_sdk_sqs::Client`; the registry stores and
clones these, never inspects them. -/
abbrev Client := Nat

/-- The fields of `wasmbus_rpc::core::LinkDefinition` that identify a link.
`put_link` receives one and (in this code) ignores everything in it. -/
structure LinkDefinition where
  actor_id : String
  provider_id : String := ""
  link_name : String := "default"
  deriving DecidableEq, Repr

/-- Opaque `RpcError` payload for `RpcResult` (never constructed by the
handlers under verification, which either succeed or panic). -/
structure RpcError where
  message : String
  deriving DecidableEq, Repr

/-- The provider's shared state `actors: Arc<RwLock<HashMap<String, sqs::Client>>>`,
modelled as an association list with at most one binding per key (the
operations below preserve that, mirroring `HashMap` semantics). -/
structure Registry where
  entries : List (String × Client)
  deriving DecidableEq, Repr

/-- `HashMap::get` composed with `clone`: the handle stored for `k`, if any. -/
def Registry.get (reg : Registry) (k : String) : Option Client :=
  (reg.entries.find? (fun p => p.1 == k)).map (fun p => p.2)

/-- `HashMap::insert`: bind `k` to `v`, replacing any previous binding. -/
def Registry.insert (reg : Registry) (k : String) (v : Client) : Registry :=
  ⟨(k, v) :: reg.entries.filter (fun p => p.1 != k)⟩

/-- `HashMap::remove`: drop the binding for `k`; the Bool is
`remove(..).is_some()`, used by `delete_link` only for logging. -/
def Registry.remove (reg : Registry) (k : String) : Registry × Bool :=
  (⟨reg.entries.filter (fun p => p.1 != k)⟩,
   (reg.entries.find? (fun p => p.1 == k)).isSome)

/-- `SqsProvider::default()`: the registry starts empty. -/
def Registry.default : Registry := ⟨[]⟩

/-- `put_link` (main.rs 78-87): builds a client from the process environment
(the fresh handle is the `client` argument here, since client construction is
an external collaborator), then inserts it under the constant key
`DEFAULT_ACTOR_NAME` — not under `ld.actor_id` — and returns `Ok(true)`. -/
def put_link (reg : Registry) (_ld : LinkDefinition) (client : Client) :
    Registry × Except RpcError Bool :=
  (reg.insert DEFAULT_ACTOR_NAME client, .ok true)

/-- `delete_link` (main.rs 91-98): ignores `actor_id` and removes the
constant key `DEFAULT_ACTOR_NAME` (the removal result only drives a log line). -/
def delete_link (reg : Registry) (_actor_id : String) : Registry :=
  (reg.remove DEFAULT_ACTOR_NAME).1

/-- `shutdown` (main.rs 101-105): clears the map and returns
`Ok(())` with error type `Infallible` (embedded as `Empty`). -/
def shutdown (_reg : Registry) : Registry × Except Empty Unit :=
  (⟨[]⟩, .ok ())

/-- `wasmcloud_interface_messaging::PubMessage` (subject, optional reply-to,
byte payload; the payload is modelled by the string it decodes from). -/
structure PubMessage where
  subject : String
  reply_to : Option String
  body : String
  deriving DecidableEq, Repr

/-- `wasmcloud_interface_messaging::RequestMessage`. -/
structure RequestMessage where
  subject : String
  body : String
  timeout_ms : Nat := 0
  deriving DecidableEq, Repr

/-- `wasmcloud_interface_messaging::ReplyMessage`. -/
structure ReplyMessage where
  subject : String
  body : String
  reply_to : Option String
  deriving DecidableEq, Repr

/-- An SQS service/network error (opaque). -/
structure SqsError where
  message : String
  deriving DecidableEq, Repr

/-- `ListQueuesOutput`: `queue_urls()` yields `Option<&[String]>`. -/
structure ListQueuesOutput where
  queue_urls : Option (List String)
  deriving DecidableEq, Repr

/-- One received SQS message: `body()` yields `Option<&str>`. -/
structure SqsMessage where
  body : Option String
  deriving DecidableEq, Repr

/-- `ReceiveMessageOutput`: `messages()` yields `Option<&[Message]>`. -/
structure ReceiveMessageOutput where
  messages : Option (List SqsMessage)
  deriving DecidableEq, Repr

/-- The queue backend's behavior for one client handle: the responses the
SDK calls made by this provider would return. -/
structure Backend where
  list_queues : Except SqsError ListQueuesOutput
  send_message : String → String → Except SqsError Unit
  receive_message : String → Except SqsError ReceiveMessageOutput

/-- A backend operation actually issued over the network by a call. -/
inductive BackendOp where
  | listQueues
  | send (queue_url : String) (body : String)
  | receive (queue_url : String)
  deriving DecidableEq, Repr

/-- Outcome of running code that may `.unwrap()` a missing value:
either a value, or a Rust panic. -/
inductive PanicOr (α : Type) where
  | ok (value : α)
  | panic
  deriving DecidableEq, Repr

/-- `publish` (main.rs 113-131), step by step:
`self.actors.read().get(DEFAULT_ACTOR_NAME).unwrap().clone()`;
`cli.list_queues().send().await.unwrap()`;
`qurls.queue_urls().unwrap().first().unwrap()`;
then `send_message().message_body("ok").queue_url(qurl).send()`, whose
result is matched: Ok is logged at debug, Err is logged at error, and in
both cases the function returns `Ok(())`.  The second component lists the
backend operations issued before the outcome (or panic) occurred. -/
def publish (reg : Registry) (backend : Client → Backend) (_msg : PubMessage) :
    PanicOr (Except RpcError Unit) × List BackendOp :=
  match reg.get DEFAULT_ACTOR_NAME with
  | none => (.panic, [])
  | some cli =>
    match (backend cli).list_queues with
    | .error _ => (.panic, [.listQueues])
    | .ok qurls =>
      match qurls.queue_urls with
      | none => (.panic, [.listQueues])
      | some urls =>
        match urls.head? with
        | none => (.panic, [.listQueues])
        | some qurl =>
          match (backend cli).send_message qurl "ok" with
          | .ok _ => (.ok (.ok ()), [.listQueues, .send qurl "ok"])
          | .error _ => (.ok (.ok ()), [.listQueues, .send qurl "ok"])

/-- `request` (main.rs 134-159):
same lookup/list/first sequence as `publish` (each `.unwrap()`), then
`receive_message().queue_url(qurl).send().await.unwrap()`, then
`msg.messages().unwrap().first().unwrap().body().unwrap()`, and finally
`Ok(ReplyMessage { subject: "hello", body: <received body bytes>, reply_to: None })`. -/
def request (reg : Registry) (backend : Client → Backend) (_msg : RequestMessage) :
    PanicOr (Except RpcError ReplyMessage) × List BackendOp :=
  match reg.get DEFAULT_ACTOR_NAME with
  | none => (.panic, [])
  | some cli =>
    match (backend cli).list_queues with
    | .error _ => (.panic, [.listQueues])
    | .ok qurls =>
      match qurls.queue_urls with
      | none => (.panic, [.listQueues])
      | some urls =>
        match urls.head? with
        | none => (.panic, [.listQueues])
        | some qurl =>
          match (backend cli).receive_message qurl with
          | .error _ => (.panic, [.listQueues, .receive qurl])
          | .ok out =>
            match out.messages with
            | none => (.panic, [.listQueues, .receive qurl])
            | some msgs =>
              match msgs.head? with
              | none => (.panic, [.listQueues, .receive qurl])
              | some first =>
                match first.body with
                | none => (.panic, [.listQueues, .receive qurl])
                | some b =>
                  (.ok (.ok ⟨"hello", b, none⟩), [.listQueues, .receive qurl])

/-- Registry states reachable in this code: every binding uses the constant
actor key, hence there is at most one binding in total. -/
def Registry.inv (reg : Registry) : Prop :=
  reg.entries.length ≤ 1 ∧ ∀ p ∈ reg.entries, p.1 = DEFAULT_ACTOR_NAME

instance (reg : Registry) : Decidable reg.inv := by
  unfold Registry.inv; infer_instance

/-! Concrete scenario data used by the closed theorems below. -/

/-- A registry in which one link has been put (handle `0`). -/
def regLinked : Registry := (put_link Registry.default ⟨"actorA", "", "default"⟩ 0).1

/-- A backend with one queue, all operations succeeding, one message waiting. -/
def bkHappy : Client → Backend := fun _ =>
  { list_queues := .ok ⟨some ["https://sqs.example/q1"]⟩,
    send_message := fun _ _ => .ok (),
    receive_message := fun _ => .ok ⟨some [⟨some "payload"⟩]⟩ }

/-- A backend whose queue enumeration succeeds but reports zero queues. -/
def bkNoQueues : Client → Backend := fun _ =>
  { list_queues := .ok ⟨some []⟩,
    send_message := fun _ _ => .ok (),
    receive_message := fun _ => .ok ⟨some []⟩ }

/-- A backend with one queue whose receive operation returns zero messages. -/
def bkNoMessages : Client → Backend := fun _ =>
  { list_queues := .ok ⟨some ["https://sqs.example/q1"]⟩,
    send_message := fun _ _ => .ok (),
    receive_message := fun _ => .ok ⟨some []⟩ }

/-- A backend with one queue whose send operation fails with a service error. -/
def bkSendFails : Client → Backend := fun _ =>
  { list_queues := .ok ⟨some ["https://sqs.example/q1"]⟩,
    send_message := fun _ _ => .error ⟨"service unavailable"⟩,
    receive_message := fun _ => .ok ⟨some []⟩ }

/-! Helper lemmas about the association-list registry. -/

/-- Filtering out key `k` leaves nothing for `find?` on `k` to find. -/
theorem find_filter_ne (l : List (String × Client)) (k : String) :
    (l.filter (fun p => p.1 != k)).find? (fun p => p.1 == k) = none := by
  induction l with
  | nil => rfl
  | cons a t ih =>
    by_cases h : a.1 = k
    · simp [List.filter_cons, h, ih]
    · simp [List.filter_cons, h, ih]

/-- Filtering out key `k` twice is the same as once. -/
theorem filter_ne_idem (l : List (String × Client)) (k : String) :
    (l.filter (fun p => p.1 != k)).filter (fun p => p.1 != k)
      = l.filter (fun p => p.1 != k) := by
  induction l with
  | nil => rfl
  | cons a t ih =>
    by_cases h : a.1 = k
    · simp [List.filter_cons, h, ih]
    · simp [List.filter_cons, h, ih]

/-- Under the invariant, every entry is keyed `DEFAULT_ACTOR_NAME`, so
filtering that key out empties the registry. -/
theorem filter_ne_of_inv (reg : Registry) (h : reg.inv) :
    reg.entries.filter (fun p => p.1 != DEFAULT_ACTOR_NAME) = [] := by
  rw [List.filter_eq_nil_iff]
  intro p hp
  simp [h.2 p hp]

/-! Claim theorems. -/

/-- C1: For every link definition passed to put_link and every actor_id passed
to delete_link, the registry key used is the single constant actor key
`DEFAULT_ACTOR_NAME`, not the host-supplied identifier: put_link inserts the
new connection under that constant key (and its result does not depend on the
link's actor id), delete_link removes that constant key (and does not depend
on its actor id argument), and — over registries reachable in this code —
the registry after put_link holds exactly the one new connection. -/
theorem C1_constant_actor_key (reg : Registry) (ld : LinkDefinition) (c : Client)
    (aid : String) (h : reg.inv) :
    (put_link reg ld c).1.get DEFAULT_ACTOR_NAME = some c ∧
    (put_link reg ld c).1 = (put_link reg { ld with actor_id := aid } c).1 ∧
    (delete_link reg aid).get DEFAULT_ACTOR_NAME = none ∧
    delete_link reg aid = delete_link reg DEFAULT_ACTOR_NAME ∧
    (put_link reg ld c).1.entries = [(DEFAULT_ACTOR_NAME, c)] := by
  refine ⟨?_, rfl, ?_, rfl, ?_⟩
  · simp [put_link, Registry.insert, Registry.get]
  · simp [delete_link, Registry.remove, Registry.get, find_filter_ne]
  · simp [put_link, Registry.insert, filter_ne_of_inv reg h]

/-- Witness for C1 at a concrete input: the empty registry satisfies the
invariant and the conclusion holds for link "actorA", handle 7, actor id
"actorB". -/
theorem C1_constant_actor_key_witness :
    Registry.default.inv ∧
    ((put_link Registry.default ⟨"actorA", "", "default"⟩ 7).1.get DEFAULT_ACTOR_NAME = some 7 ∧
     (put_link Registry.default ⟨"actorA", "", "default"⟩ 7).1 =
       (put_link Registry.default
         { (⟨"actorA", "", "default"⟩ : LinkDefinition) with actor_id := "actorB" } 7).1 ∧
     (delete_link Registry.default "actorB").get DEFAULT_ACTOR_NAME = none ∧
     delete_link Registry.default "actorB" = delete_link Registry.default DEFAULT_ACTOR_NAME ∧
     (put_link Registry.default ⟨"actorA", "", "default"⟩ 7).1.entries
       = [(DEFAULT_ACTOR_NAME, 7)]) :=
  ⟨by decide,
   C1_constant_actor_key Registry.default ⟨"actorA", "", "default"⟩ 7 "actorB" (by decide)⟩

/-- C2 (code bug witness): with no connection in the registry, publish and
request do not return a typed `NoConnection` failure — the `.unwrap()` on the
registry lookup panics (before any backend operation is issued). -/
theorem C2_missing_connection_panics :
    publish Registry.default bkHappy ⟨"sub", none, "body"⟩ = (.panic, []) ∧
    request Registry.default bkHappy ⟨"sub", "body", 0⟩ = (.panic, []) :=
  ⟨rfl, rfl⟩

/-- C3 (code bug witness): when the backend reports zero queues, publish and
request panic on the `.unwrap()` of `first()` instead of returning a typed
`NoQueueAvailable` failure; they do, however, issue no send or receive
operation (only the queue enumeration). -/
theorem C3_empty_queue_list_panics :
    publish regLinked bkNoQueues ⟨"sub", none, "body"⟩ = (.panic, [.listQueues]) ∧
    request regLinked bkNoQueues ⟨"sub", "body", 0⟩ = (.panic, [.listQueues]) :=
  ⟨rfl, rfl⟩

/-- C4 (code bug witness): when queue enumeration succeeds but the receive
operation returns zero messages, request panics on the `.unwrap()` of
`first()` instead of returning a typed `NoMessageAvailable` failure (and
returns no Reply of any kind). -/
theorem C4_zero_messages_panics :
    request regLinked bkNoMessages ⟨"sub", "body", 0⟩
      = (.panic, [.listQueues, .receive "https://sqs.example/q1"]) :=
  rfl

/-- C5 (code bug witness): when the backend send operation inside publish
fails, publish still returns success — the error is logged and dropped, not
propagated to the caller. -/
theorem C5_send_error_swallowed :
    publish regLinked bkSendFails ⟨"sub", none, "body"⟩
      = (.ok (.ok ()), [.listQueues, .send "https://sqs.example/q1" "ok"]) :=
  rfl

/-- C7: after shutdown the registry is entirely empty — every lookup returns
none — and shutdown itself reports success unconditionally (its error type is
`Infallible`/`Empty`, so it cannot fail). -/
theorem C7_shutdown_clears (reg : Registry) (aid : String) :
    (shutdown reg).1.get aid = none ∧ (shutdown reg).2 = .ok () :=
  ⟨rfl, rfl⟩

/-- C6: publish submits the fixed placeholder payload "ok" as the queue
message body, not the caller-supplied body: its whole outcome (result and
backend operations) is independent of the message argument, and every send
operation it issues carries the constant body "ok". -/
theorem C6_placeholder_body (reg : Registry) (bk : Client → Backend)
    (m m2 : PubMessage) :
    publish reg bk m = publish reg bk m2 ∧
    ∀ q b, BackendOp.send q b ∈ (publish reg bk m).2 → b = "ok" := by
  refine ⟨rfl, ?_⟩
  intro q b hb
  rcases hg : reg.get DEFAULT_ACTOR_NAME with _ | cli
  · simp [publish, hg] at hb
  · rcases hl : (bk cli).list_queues with e | qurls
    · simp [publish, hg, hl] at hb
    · rcases hq : qurls.queue_urls with _ | urls
      · simp [publish, hg, hl, hq] at hb
      · rcases hu : urls.head? with _ | qurl
        · simp [publish, hg, hl, hq, hu] at hb
        · rcases hs : (bk cli).send_message qurl "ok" with e | u
          · simp [publish, hg, hl, hq, hu, hs] at hb
            exact hb.2
          · simp [publish, hg, hl, hq, hu, hs] at hb
            exact hb.2

/-- C8: put_link always returns `Ok(true)` (every link is accepted), and
repeated calls replace the prior connection handle: a second put_link gives
the same registry as if only it had run, with the new handle stored. -/
theorem C8_put_link_accepts_and_replaces (reg : Registry)
    (ld ld2 : LinkDefinition) (c c2 : Client) :
    (put_link reg ld c).2 = .ok true ∧
    (put_link (put_link reg ld c).1 ld2 c2).1 = (put_link reg ld2 c2).1 ∧
    (put_link (put_link reg ld c).1 ld2 c2).1.get DEFAULT_ACTOR_NAME = some c2 := by
  refine ⟨rfl, ?_, ?_⟩
  · simp [put_link, Registry.insert, List.filter_cons, filter_ne_idem]
  · simp [put_link, Registry.insert, Registry.get]

/-- C9: when request succeeds, the returned Reply's body is the body of the
single received queue message and its subject is the fixed constant "hello";
moreover the whole outcome of request is independent of the request message
(in particular of its subject). -/
theorem C9_reply_from_received_message (reg : Registry) (bk : Client → Backend)
    (m m2 : RequestMessage) (cli : Client) (urls : List String) (q : String)
    (out : ReceiveMessageOutput) (msgs : List SqsMessage) (first : SqsMessage)
    (b : String)
    (hg : reg.get DEFAULT_ACTOR_NAME = some cli)
    (hl : (bk cli).list_queues = .ok ⟨some urls⟩)
    (hu : urls.head? = some q)
    (hr : (bk cli).receive_message q = .ok out)
    (hm : out.messages = some msgs)
    (hf : msgs.head? = some first)
    (hb : first.body = some b) :
    (request reg bk m).1 = .ok (.ok ⟨"hello", b, none⟩) ∧
    request reg bk m = request reg bk m2 := by
  refine ⟨?_, rfl⟩
  simp [request, hg, hl, hu, hr, hm, hf, hb]

/-- Witness for C9 at a concrete input: a linked registry and a backend whose
receive returns one message with body "payload" yield the reply
⟨"hello", "payload", none⟩, independent of the request message. -/
theorem C9_reply_from_received_message_witness :
    (request regLinked bkHappy ⟨"subjA", "bodyA", 0⟩).1
      = .ok (.ok ⟨"hello", "payload", none⟩) ∧
    request regLinked bkHappy ⟨"subjA", "bodyA", 0⟩
      = request regLinked bkHappy ⟨"subjB", "bodyB", 9⟩ :=
  C9_reply_from_received_message regLinked bkHappy ⟨"subjA", "bodyA", 0⟩
    ⟨"subjB", "bodyB", 9⟩ 0 ["https://sqs.example/q1"] "https://sqs.example/q1"
    ⟨some [⟨some "payload"⟩]⟩ [⟨some "payload"⟩] ⟨some "payload"⟩ "payload"
    rfl rfl rfl rfl rfl rfl rfl

/-- C10: the registry invariant "at most one entry in total, always keyed by
the constant actor name" holds initially and is kept by put_link, delete_link
and shutdown; consequently a second actor linking overwrites the first
actor's connection: after two put_links the registry holds exactly the second
handle. -/
theorem C10_single_entry_invariant (reg : Registry) (ld ldB : LinkDefinition)
    (c cB : Client) (aid : String) (h : reg.inv) :
    Registry.default.inv ∧
    (put_link reg ld c).1.inv ∧
    (delete_link reg aid).inv ∧
    (shutdown reg).1.inv ∧
    (put_link (put_link reg ld c).1 ldB cB).1.entries = [(DEFAULT_ACTOR_NAME, cB)] ∧
    (put_link (put_link reg ld c).1 ldB cB).1.get DEFAULT_ACTOR_NAME = some cB := by
  refine ⟨⟨by simp [Registry.default], by simp [Registry.default]⟩, ?_, ?_, ?_, ?_, ?_⟩
  · constructor
    · simp [put_link, Registry.insert, filter_ne_of_inv reg h]
    · intro p hp
      simp [put_link, Registry.insert, filter_ne_of_inv reg h] at hp
      simp [hp]
  · constructor
    · exact le_trans (List.length_filter_le _ _) h.1
    · intro p hp
      exact h.2 p (List.mem_of_mem_filter hp)
  · exact ⟨by simp [shutdown], by simp [shutdown]⟩
  · simp [put_link, Registry.insert, List.filter_cons, filter_ne_of_inv reg h]
  · simp [put_link, Registry.insert, Registry.get]

/-- Witness for C10 at a concrete input: starting from the empty registry
(which satisfies the invariant), with links for "actorA" (handle 1) and
"actorB" (handle 2) and delete for "actorC". -/
theorem C10_single_entry_invariant_witness :
    Registry.default.inv ∧
    (Registry.default.inv ∧
     (put_link Registry.default ⟨"actorA", "", "default"⟩ 1).1.inv ∧
     (delete_link Registry.default "actorC").inv ∧
     (shutdown Registry.default).1.inv ∧
     (put_link (put_link Registry.default ⟨"actorA", "", "default"⟩ 1).1
        ⟨"actorB", "", "default"⟩ 2).1.entries = [(DEFAULT_ACTOR_NAME, 2)] ∧
     (put_link (put_link Registry.default ⟨"actorA", "", "default"⟩ 1).1
        ⟨"actorB", "", "default"⟩ 2).1.get DEFAULT_ACTOR_NAME = some 2) :=
  ⟨by decide,
   C10_single_entry_invariant Registry.default ⟨"actorA", "", "default"⟩
     ⟨"actorB", "", "default"⟩ 1 2 "actorC" (by decide)⟩

end Sqs
